import Mathlib

/-!
# Verification of the reviews backend (src/backend/index.js)

A shallow embedding of the Express + PostgreSQL backend in `src/backend/index.js`.
The relational store is modelled as explicit in-memory state (lists of rows plus
SERIAL counters); the external `bcrypt` and `jsonwebtoken` libraries are modelled
by executable functions capturing their documented observable behaviour (a salted
one-way hash object that `compare` can check, and a signed token carrying claims,
a signature and an expiry instant).  Request handlers are pure functions from the
request data and store state to a response value and the successor store state.
-/

namespace Reviews

/-- Model of a value stored in the `password` column.  `bcrypt.hash pw 10`
returns a salted one-way hash of `pw`; the model keeps the hashed password and
salt as an abstract `hashed` object, distinct by construction from any `plain`
text value, so that `bcrypt.compare` can be modelled while keeping hash objects
and plaintext incomparable. -/
inductive StoredPassword where
  | hashed (pw : String) (salt : Nat)
  | plain (pw : String)
deriving DecidableEq, Repr

/-- Model of `bcrypt.hash(password, 10)`: a salted one-way hash of `password`
(the `salt` argument models the randomly generated salt). -/
def bcryptHash (password : String) (salt : Nat) : StoredPassword :=
  StoredPassword.hashed password salt

/-- Model of `bcrypt.compare(password, stored)`: true exactly when `password`
verifies against the stored hash. -/
def bcryptCompare (password : String) (stored : StoredPassword) : Bool :=
  match stored with
  | StoredPassword.hashed pw _ => password == pw
  | StoredPassword.plain pw => password == pw

/-- Row of the `users` table (`id SERIAL, name, email UNIQUE, password, is_admin`). -/
structure User where
  id : Nat
  name : String
  email : String
  password : StoredPassword
  is_admin : Bool
deriving DecidableEq, Repr

/-- Row of the `reviews` table (`id SERIAL, user_id REFERENCES users, content,
created_at TIMESTAMP DEFAULT CURRENT_TIMESTAMP`); `created_at` is the
server-assigned timestamp, modelled as a natural number. -/
structure Review where
  id : Nat
  user_id : Nat
  content : String
  created_at : Nat
deriving DecidableEq, Repr

/-- The relational store's data state: the rows of `users` and `reviews`, and
the next values of the two SERIAL id sequences. -/
structure DB where
  users : List User
  reviews : List Review
  nextUserId : Nat
  nextReviewId : Nat
deriving DecidableEq, Repr

/-- JWT claims payload: `jwt.sign({ id: user.id, is_admin: user.is_admin }, ...)`. -/
structure Claims where
  id : Nat
  is_admin : Bool
deriving DecidableEq, Repr

/-- Model of a signed JWT: the claims, the secret the token was signed with
(standing for the signature), the issue instant and the expiry instant. -/
structure Token where
  claims : Claims
  sig : String
  iat : Nat
  exp : Nat
deriving DecidableEq, Repr

/-- Model of `jwt.sign(claims, secret, { expiresIn: '2h' })` at instant `now`:
the expiry is two hours (7200 seconds) after issuance. -/
def jwtSign (claims : Claims) (secret : String) (now : Nat) : Token :=
  { claims := claims, sig := secret, iat := now, exp := now + 7200 }

/-- Model of `jwt.verify(token, secret)` at instant `now`: succeeds with the
embedded claims exactly when the signature matches the secret and the token is
not yet expired; otherwise it throws (modelled as `none`). -/
def jwtVerify (t : Token) (secret : String) (now : Nat) : Option Claims :=
  if t.sig == secret && decide (now < t.exp) then some t.claims else none

/-- An error response produced by the token middleware: HTTP status and message. -/
structure AuthError where
  status : Nat
  error : String
deriving DecidableEq, Repr

/-- The `Authorization` header of a request, as seen by `verificarToken`:
either absent, or present with the `split(' ')[1]` part either failing to parse
as a token (`header none`) or being a token value. -/
inductive AuthInput where
  | noHeader
  | header (tok : Option Token)
deriving DecidableEq, Repr

/-- `verificarToken` middleware: missing `Authorization` header → 401
`'Token requerido'`; `jwt.verify` throwing (malformed, bad signature or
expired) → 403 `'Token inválido'`; otherwise the decoded claims are attached to
the request and the handler runs. -/
def verificarToken (secret : String) (now : Nat) (input : AuthInput) :
    Except AuthError Claims :=
  match input with
  | AuthInput.noHeader => Except.error ⟨401, "Token requerido"⟩
  | AuthInput.header none => Except.error ⟨403, "Token inválido"⟩
  | AuthInput.header (some t) =>
    match jwtVerify t secret now with
    | some claims => Except.ok claims
    | none => Except.error ⟨403, "Token inválido"⟩

/-- The schema state the `/create-tables` endpoint manipulates: whether each of
the three tables exists. -/
structure Schema where
  usersTable : Bool
  reviewsTable : Bool
  ratingsTable : Bool
deriving DecidableEq, Repr

/-- `CREATE TABLE IF NOT EXISTS`: creates the table only if absent. -/
def createIfNotExists (tableExists : Bool) : Bool :=
  if tableExists then tableExists else true

/-- `GET /create-tables`: runs the three `CREATE TABLE IF NOT EXISTS`
statements for `users`, `reviews` and `ratings`. -/
def createTables (s : Schema) : Schema :=
  { usersTable := createIfNotExists s.usersTable
    reviewsTable := createIfNotExists s.reviewsTable
    ratingsTable := createIfNotExists s.ratingsTable }

/-- JavaScript falsiness of a body field of type string: a missing field
(`undefined`) and the empty string are both falsy. -/
def falsy : Option String → Bool
  | none => true
  | some s => s.isEmpty

/-- `SELECT * FROM users WHERE email = $1` followed by taking `rows[0]` (the
login lookup): the first user row whose email matches. -/
def findUserByEmail (db : DB) (email : String) : Option User :=
  db.users.find? (fun u => u.email == email)

/-- Whether inserting a user with this email violates the `UNIQUE` constraint
on `users.email`. -/
def emailTaken (db : DB) (email : String) : Bool :=
  db.users.any (fun u => u.email == email)

/-- Response of `POST /register`. -/
inductive RegisterResult where
  | missingFields
  | created (id : Nat) (name : String) (email : String)
  | serverError
deriving DecidableEq, Repr

/-- HTTP status of a `POST /register` response. -/
def RegisterResult.status : RegisterResult → Nat
  | RegisterResult.missingFields => 400
  | RegisterResult.created _ _ _ => 201
  | RegisterResult.serverError => 500

/-- Error message carried by a `POST /register` error response. -/
def RegisterResult.errorMsg : RegisterResult → Option String
  | RegisterResult.missingFields => some "Faltan campos"
  | RegisterResult.created _ _ _ => none
  | RegisterResult.serverError => some "Error al registrar"

/-- `POST /register`: rejects falsy `name`/`email`/`password` with 400; hashes
the password with bcrypt and inserts `(name, email, hash)` returning
`id, name, email` with 201; any store error (in particular the `UNIQUE`
violation on `email`) is caught and surfaced as a generic 500.  `salt` models
the salt freshly generated by `bcrypt.hash(password, 10)`. -/
def register (db : DB) (name email password : Option String) (salt : Nat) :
    RegisterResult × DB :=
  if falsy email || falsy password || falsy name then
    (RegisterResult.missingFields, db)
  else
    match name, email, password with
    | some n, some e, some p =>
      if emailTaken db e then
        (RegisterResult.serverError, db)
      else
        let newUser : User :=
          { id := db.nextUserId, name := n, email := e
            password := bcryptHash p salt, is_admin := false }
        (RegisterResult.created db.nextUserId n e,
          { db with users := db.users ++ [newUser], nextUserId := db.nextUserId + 1 })
    | _, _, _ => (RegisterResult.serverError, db)

/-- Response of `POST /login`. -/
inductive LoginResult where
  | userNotFound
  | wrongPassword
  | ok (token : Token) (id : Nat) (name : String) (email : String) (is_admin : Bool)
deriving DecidableEq, Repr

/-- HTTP status of a `POST /login` response. -/
def LoginResult.status : LoginResult → Nat
  | LoginResult.userNotFound => 400
  | LoginResult.wrongPassword => 401
  | LoginResult.ok _ _ _ _ _ => 200

/-- The token contained in a `POST /login` response, if any. -/
def LoginResult.tokenOf : LoginResult → Option Token
  | LoginResult.ok t _ _ _ _ => some t
  | _ => none

/-- `POST /login`: looks the user up by email (400 `'Usuario no encontrado'` if
absent), verifies the password with `bcrypt.compare` (401 `'Contraseña
incorrecta'` on mismatch), and on success signs a 2-hour token embedding the
user's id and admin flag. -/
def login (db : DB) (secret : String) (now : Nat) (email password : String) :
    LoginResult :=
  match findUserByEmail db email with
  | none => LoginResult.userNotFound
  | some user =>
    if bcryptCompare password user.password then
      LoginResult.ok (jwtSign ⟨user.id, user.is_admin⟩ secret now)
        user.id user.name user.email user.is_admin
    else
      LoginResult.wrongPassword

/-- A row of the `GET /reviews` result set:
`SELECT r.id, r.content, r.created_at, u.name AS user_name`. -/
structure ReviewRow where
  id : Nat
  content : String
  created_at : Nat
  user_name : String
deriving DecidableEq, Repr

/-- The ordering used by `ORDER BY r.created_at DESC`: row `a` may precede row
`b` when `b`'s creation time is at most `a`'s. -/
def rowGE (a b : ReviewRow) : Prop := b.created_at ≤ a.created_at

instance : DecidableRel rowGE := fun a b => Nat.decLe b.created_at a.created_at

instance : IsTotal ReviewRow rowGE :=
  ⟨fun a b => Nat.le_total b.created_at a.created_at⟩

instance : IsTrans ReviewRow rowGE :=
  ⟨fun _ _ _ h1 h2 => Nat.le_trans h2 h1⟩

/-- The unordered result of
`FROM reviews r JOIN users u ON r.user_id = u.id`: one row per matching
(review, user) pair. -/
def joinRows (db : DB) : List ReviewRow :=
  db.reviews.flatMap (fun r =>
    (db.users.filter (fun u => u.id == r.user_id)).map
      (fun u =>
        { id := r.id, content := r.content, created_at := r.created_at
          user_name := u.name }))

/-- `GET /reviews`: the join of all reviews with their owning user's name,
ordered by `created_at DESC` (modelled by a sort w.r.t. `rowGE`). -/
def listReviews (db : DB) : List ReviewRow :=
  List.insertionSort rowGE (joinRows db)

/-- Whether a list of result rows is in strictly descending creation-time
order (every earlier row strictly newer than every later one). -/
def strictlyDescending (rows : List ReviewRow) : Prop :=
  rows.Pairwise (fun a b => b.created_at < a.created_at)

instance : Decidable (strictlyDescending rows) :=
  List.instDecidablePairwise rows

/-- Response of `DELETE /reviews/:id`. -/
inductive DeleteResult where
  | authFailure (e : AuthError)
  | forbidden
  | deleted
deriving DecidableEq, Repr

/-- HTTP status of a `DELETE /reviews/:id` response. -/
def DeleteResult.status : DeleteResult → Nat
  | DeleteResult.authFailure e => e.status
  | DeleteResult.forbidden => 403
  | DeleteResult.deleted => 200

/-- Success message of a `DELETE /reviews/:id` response, if any. -/
def DeleteResult.message : DeleteResult → Option String
  | DeleteResult.deleted => some "Reseña eliminada correctamente"
  | _ => none

/-- The `DELETE /reviews/:id` handler body (after the middleware): non-admin
claims → 403 `'Acceso solo para administradores'` with no statement executed;
otherwise `DELETE FROM reviews WHERE id = $1` and a 200 success message
regardless of whether any row matched. -/
def deleteReviewHandler (db : DB) (claims : Claims) (reviewId : Nat) :
    DeleteResult × DB :=
  if !claims.is_admin then
    (DeleteResult.forbidden, db)
  else
    (DeleteResult.deleted,
      { db with reviews := db.reviews.filter (fun r => r.id != reviewId) })

/-- The full `DELETE /reviews/:id` route: `verificarToken` middleware, then the
handler. -/
def deleteRoute (db : DB) (secret : String) (now : Nat) (input : AuthInput)
    (reviewId : Nat) : DeleteResult × DB :=
  match verificarToken secret now input with
  | Except.error e => (DeleteResult.authFailure e, db)
  | Except.ok claims => deleteReviewHandler db claims reviewId

/-- Response of `POST /crear-admin`. -/
inductive AdminResult where
  | missingFields
  | created (id : Nat) (name : String) (email : String) (is_admin : Bool)
  | serverError
deriving DecidableEq, Repr

/-- HTTP status of a `POST /crear-admin` response. -/
def AdminResult.status : AdminResult → Nat
  | AdminResult.missingFields => 400
  | AdminResult.created _ _ _ _ => 201
  | AdminResult.serverError => 500

/-- `POST /crear-admin`: no middleware and no token input; rejects falsy
fields with 400 `'Faltan datos'`; otherwise inserts the user with
`is_admin = true` and returns `id, name, email, is_admin` with 201; any store
error (in particular the `UNIQUE` violation on `email`) is caught and surfaced
as a generic 500 `'No se pudo crear el admin'`. -/
def crearAdmin (db : DB) (name email password : Option String) (salt : Nat) :
    AdminResult × DB :=
  if falsy email || falsy password || falsy name then
    (AdminResult.missingFields, db)
  else
    match name, email, password with
    | some n, some e, some p =>
      if emailTaken db e then
        (AdminResult.serverError, db)
      else
        let newUser : User :=
          { id := db.nextUserId, name := n, email := e
            password := bcryptHash p salt, is_admin := true }
        (AdminResult.created db.nextUserId n e true,
          { db with users := db.users ++ [newUser], nextUserId := db.nextUserId + 1 })
    | _, _, _ => (AdminResult.serverError, db)

/-! ## Concrete fixtures used by witnesses and counterexamples -/

/-- A sample non-admin user whose password hash verifies `"secret"`. -/
def exUser : User :=
  { id := 1, name := "Ana", email := "ana@example.com"
    password := bcryptHash "secret" 0, is_admin := false }

/-- A sample store with one non-admin user and one review. -/
def exDB : DB :=
  { users := [exUser], reviews := [⟨1, 1, "great", 10⟩]
    nextUserId := 2, nextReviewId := 2 }

/-- A store whose two reviews share the same creation timestamp. -/
def tieDB : DB :=
  { users := [exUser]
    reviews := [⟨1, 1, "first", 5⟩, ⟨2, 1, "second", 5⟩]
    nextUserId := 2, nextReviewId := 3 }

/-- A token correctly signed with secret `"s"` for a non-admin user. -/
def exToken : Token := { claims := ⟨1, false⟩, sig := "s", iat := 0, exp := 7200 }

/-- A token correctly signed with secret `"s"` carrying an admin claim. -/
def exAdminToken : Token := { claims := ⟨1, true⟩, sig := "s", iat := 0, exp := 7200 }

/-! ## Theorems for the claims -/

/-- Claim C8: `GET /create-tables` is idempotent — it creates each of the
`users`, `reviews` and `ratings` tables only if absent, so a second invocation
leaves the store's schema identical to the state after the first one. -/
theorem createTables_idempotent (s : Schema) :
    createTables (createTables s) = createTables s := by
  simp [createTables, createIfNotExists]

/-- Claim C5: a `POST /register` request missing any of `name`, `email` or
`password` yields status 400 with the generic `'Faltan campos'` message, and
the store is unchanged (no insert is attempted). -/
theorem register_missing_fields_400 (db : DB)
    (name email password : Option String) (salt : Nat)
    (h : name = none ∨ email = none ∨ password = none) :
    (register db name email password salt).1 = RegisterResult.missingFields ∧
    (register db name email password salt).1.status = 400 ∧
    (register db name email password salt).1.errorMsg = some "Faltan campos" ∧
    (register db name email password salt).2 = db := by
  rcases h with h | h | h <;> subst h <;>
    simp [register, falsy, RegisterResult.status, RegisterResult.errorMsg]

/-- Witness for `register_missing_fields_400` at a concrete request with the
`password` field absent. -/
theorem register_missing_fields_400_witness :
    (register exDB (some "Eve") (some "eve@example.com") none 3).1 =
      RegisterResult.missingFields ∧
    (register exDB (some "Eve") (some "eve@example.com") none 3).1.status = 400 ∧
    (register exDB (some "Eve") (some "eve@example.com") none 3).1.errorMsg =
      some "Faltan campos" ∧
    (register exDB (some "Eve") (some "eve@example.com") none 3).2 = exDB :=
  register_missing_fields_400 exDB (some "Eve") (some "eve@example.com") none 3
    (Or.inr (Or.inr rfl))

/-- Claim C2: the `verificarToken` middleware answers 401 when the
`Authorization` header is absent and 403 when the presented token's signature
is invalid or the token is expired; a handler only ever receives claims coming
from a token whose signature matches the secret and whose expiry is in the
future. -/
theorem verificarToken_middleware_spec (secret : String) (now : Nat) :
    verificarToken secret now AuthInput.noHeader =
      Except.error ⟨401, "Token requerido"⟩ ∧
    (∀ t : Token, t.sig ≠ secret ∨ t.exp ≤ now →
      verificarToken secret now (AuthInput.header (some t)) =
        Except.error ⟨403, "Token inválido"⟩) ∧
    (∀ t : Token, ∀ c : Claims,
      verificarToken secret now (AuthInput.header (some t)) = Except.ok c →
      t.sig = secret ∧ now < t.exp ∧ c = t.claims) := by
  refine ⟨rfl, ?_, ?_⟩
  · intro t h
    have hcond : (t.sig == secret && decide (now < t.exp)) = false := by
      rcases h with h1 | h2
      · simp [h1]
      · simp [Nat.not_lt.mpr h2]
    simp [verificarToken, jwtVerify, hcond]
  · intro t c hok
    simp only [verificarToken] at hok
    cases hv : jwtVerify t secret now with
    | none => rw [hv] at hok; cases hok
    | some claims =>
      rw [hv] at hok
      have hc : c = claims := by
        cases hok
        rfl
      unfold jwtVerify at hv
      by_cases hcond : (t.sig == secret && decide (now < t.exp)) = true
      · have hsig : t.sig = secret := by
          have := (Bool.and_eq_true _ _).mp hcond
          exact beq_iff_eq.mp this.1
        have hlt : now < t.exp := by
          have := (Bool.and_eq_true _ _).mp hcond
          exact of_decide_eq_true this.2
        rw [if_pos hcond] at hv
        have hclaims : claims = t.claims := by
          cases hv
          rfl
        exact ⟨hsig, hlt, hc.trans hclaims⟩
      · rw [if_neg hcond] at hv
        cases hv

/-- Witness for `verificarToken_middleware_spec`: the 403 branch at a concrete
token whose signature does not match the secret. -/
theorem verificarToken_middleware_spec_witness :
    verificarToken "s" 0
        (AuthInput.header (some { claims := ⟨1, false⟩, sig := "bad", iat := 0, exp := 7200 })) =
      Except.error ⟨403, "Token inválido"⟩ :=
  (verificarToken_middleware_spec "s" 0).2.1
    { claims := ⟨1, false⟩, sig := "bad", iat := 0, exp := 7200 }
    (Or.inl (by decide))

/-- Claim C3: a `DELETE /reviews/:id` request carrying a verified token whose
admin claim is false is answered 403, and the store is unchanged, so every
review present before the request is still present afterward. -/
theorem delete_nonadmin_403_unchanged (db : DB) (secret : String) (now : Nat)
    (input : AuthInput) (reviewId : Nat) (c : Claims)
    (hok : verificarToken secret now input = Except.ok c)
    (hadmin : c.is_admin = false) :
    (deleteRoute db secret now input reviewId).1.status = 403 ∧
    (deleteRoute db secret now input reviewId).2 = db ∧
    ∀ r ∈ db.reviews, r ∈ (deleteRoute db secret now input reviewId).2.reviews := by
  refine ⟨?_, ?_, ?_⟩ <;>
    simp [deleteRoute, hok, deleteReviewHandler, hadmin, DeleteResult.status]

/-- Witness for `delete_nonadmin_403_unchanged` at a concrete non-admin
token. -/
theorem delete_nonadmin_403_unchanged_witness :
    (deleteRoute exDB "s" 5 (AuthInput.header (some exToken)) 1).1.status = 403 ∧
    (deleteRoute exDB "s" 5 (AuthInput.header (some exToken)) 1).2 = exDB ∧
    ∀ r ∈ exDB.reviews,
      r ∈ (deleteRoute exDB "s" 5 (AuthInput.header (some exToken)) 1).2.reviews :=
  delete_nonadmin_403_unchanged exDB "s" 5 (AuthInput.header (some exToken)) 1
    ⟨1, false⟩ rfl rfl

/-- Claim C10: a `DELETE /reviews/:id` request carrying a verified admin token
whose id matches no existing review still answers 200 with the success
message, and the store is unchanged — deleting a nonexistent review is
indistinguishable from a successful deletion. -/
theorem delete_nonexistent_200_unchanged (db : DB) (secret : String) (now : Nat)
    (input : AuthInput) (reviewId : Nat) (c : Claims)
    (hok : verificarToken secret now input = Except.ok c)
    (hadmin : c.is_admin = true)
    (hnone : ∀ r ∈ db.reviews, r.id ≠ reviewId) :
    (deleteRoute db secret now input reviewId).1.status = 200 ∧
    (deleteRoute db secret now input reviewId).1.message =
      some "Reseña eliminada correctamente" ∧
    (deleteRoute db secret now input reviewId).2 = db := by
  have hfilter : db.reviews.filter (fun r => r.id != reviewId) = db.reviews :=
    List.filter_eq_self.mpr (fun r hr => by simpa using hnone r hr)
  refine ⟨?_, ?_, ?_⟩ <;>
    simp [deleteRoute, hok, deleteReviewHandler, hadmin, DeleteResult.status,
      DeleteResult.message, hfilter]

/-- Witness for `delete_nonexistent_200_unchanged`: an admin token deleting
review id 99, which does not exist in the sample store. -/
theorem delete_nonexistent_200_unchanged_witness :
    (deleteRoute exDB "s" 5 (AuthInput.header (some exAdminToken)) 99).1.status = 200 ∧
    (deleteRoute exDB "s" 5 (AuthInput.header (some exAdminToken)) 99).1.message =
      some "Reseña eliminada correctamente" ∧
    (deleteRoute exDB "s" 5 (AuthInput.header (some exAdminToken)) 99).2 = exDB :=
  delete_nonexistent_200_unchanged exDB "s" 5 (AuthInput.header (some exAdminToken)) 99
    ⟨1, true⟩ rfl rfl (by decide)

/-- Claim C1: a `POST /login` request whose email matches a stored user but
whose password does not verify against that user's stored hash is answered 401
with no token in the response; and a signed token is issued only when the
password verifies. -/
theorem login_wrong_password_401_no_token (db : DB) (secret : String)
    (now : Nat) (email password : String) :
    (∀ u : User, findUserByEmail db email = some u →
      bcryptCompare password u.password = false →
      (login db secret now email password).status = 401 ∧
      (login db secret now email password).tokenOf = none) ∧
    (∀ t : Token, (login db secret now email password).tokenOf = some t →
      ∃ u : User, findUserByEmail db email = some u ∧
        bcryptCompare password u.password = true) := by
  constructor
  · intro u hu hcmp
    simp [login, hu, hcmp, LoginResult.status, LoginResult.tokenOf]
  · intro t ht
    simp only [login] at ht
    cases hfind : findUserByEmail db email with
    | none => simp [hfind, LoginResult.tokenOf] at ht
    | some u =>
      by_cases hcmp : bcryptCompare password u.password = true
      · exact ⟨u, rfl, hcmp⟩
      · simp [hfind, hcmp, LoginResult.tokenOf] at ht

/-- Witness for `login_wrong_password_401_no_token`: logging in as the sample
user with a wrong password. -/
theorem login_wrong_password_401_no_token_witness :
    (login exDB "s" 100 "ana@example.com" "wrong").status = 401 ∧
    (login exDB "s" 100 "ana@example.com" "wrong").tokenOf = none :=
  (login_wrong_password_401_no_token exDB "s" 100 "ana@example.com" "wrong").1
    exUser rfl rfl

/-- Claim C4: a successful `POST /register` request persists in the password
column the salted one-way bcrypt hash of the supplied password — by
construction never a plaintext value — and answers 201 carrying exactly the
new identity's id, name and email. -/
theorem register_success_hashes_password (db : DB) (n e p : String) (salt : Nat)
    (hn : n.isEmpty = false) (he : e.isEmpty = false) (hp : p.isEmpty = false)
    (hfresh : emailTaken db e = false) :
    ∃ newUser : User,
      (register db (some n) (some e) (some p) salt).2.users = db.users ++ [newUser] ∧
      newUser.password = bcryptHash p salt ∧
      (∀ q : String, newUser.password ≠ StoredPassword.plain q) ∧
      (register db (some n) (some e) (some p) salt).1 =
        RegisterResult.created db.nextUserId n e ∧
      (register db (some n) (some e) (some p) salt).1.status = 201 ∧
      newUser.id = db.nextUserId ∧ newUser.name = n ∧ newUser.email = e := by
  refine ⟨{ id := db.nextUserId, name := n, email := e
            password := bcryptHash p salt, is_admin := false }, ?_, rfl, ?_, ?_, ?_, rfl, rfl, rfl⟩ <;>
    simp [register, falsy, hn, he, hp, hfresh, bcryptHash, RegisterResult.status]

/-- Witness for `register_success_hashes_password`: registering a fresh email
against the sample store. -/
theorem register_success_hashes_password_witness :
    ∃ newUser : User,
      (register exDB (some "Eve") (some "eve@example.com") (some "pw") 3).2.users =
        exDB.users ++ [newUser] ∧
      newUser.password = bcryptHash "pw" 3 ∧
      (∀ q : String, newUser.password ≠ StoredPassword.plain q) ∧
      (register exDB (some "Eve") (some "eve@example.com") (some "pw") 3).1 =
        RegisterResult.created exDB.nextUserId "Eve" "eve@example.com" ∧
      (register exDB (some "Eve") (some "eve@example.com") (some "pw") 3).1.status = 201 ∧
      newUser.id = exDB.nextUserId ∧ newUser.name = "Eve" ∧ newUser.email = "eve@example.com" :=
  register_success_hashes_password exDB "Eve" "eve@example.com" "pw" 3
    rfl rfl rfl (by decide)

/-- Claim C6: a `POST /register` request (with all fields supplied) whose
email equals that of an already-registered user does not succeed: the `UNIQUE`
violation on `email` is caught and surfaced as a generic 500 — no distinct
conflict/409 error kind exists — and the store is unchanged. -/
theorem register_duplicate_email_500 (db : DB) (n e p : String) (salt : Nat)
    (hn : n.isEmpty = false) (he : e.isEmpty = false) (hp : p.isEmpty = false)
    (hdup : ∃ u ∈ db.users, u.email = e) :
    (register db (some n) (some e) (some p) salt).1 = RegisterResult.serverError ∧
    (register db (some n) (some e) (some p) salt).1.status = 500 ∧
    (∀ id name email, (register db (some n) (some e) (some p) salt).1 ≠
      RegisterResult.created id name email) ∧
    (register db (some n) (some e) (some p) salt).2 = db := by
  have htaken : emailTaken db e = true := by
    obtain ⟨u, hu, hue⟩ := hdup
    exact List.any_eq_true.mpr ⟨u, hu, by simp [hue]⟩
  refine ⟨?_, ?_, ?_, ?_⟩ <;>
    simp [register, falsy, hn, he, hp, htaken, RegisterResult.status]

/-- Witness for `register_duplicate_email_500`: re-registering the sample
user's email. -/
theorem register_duplicate_email_500_witness :
    (register exDB (some "Eve") (some "ana@example.com") (some "pw") 3).1 =
      RegisterResult.serverError ∧
    (register exDB (some "Eve") (some "ana@example.com") (some "pw") 3).1.status = 500 ∧
    (∀ id name email, (register exDB (some "Eve") (some "ana@example.com") (some "pw") 3).1 ≠
      RegisterResult.created id name email) ∧
    (register exDB (some "Eve") (some "ana@example.com") (some "pw") 3).2 = exDB :=
  register_duplicate_email_500 exDB "Eve" "ana@example.com" "pw" 3
    rfl rfl rfl ⟨exUser, by simp [exDB], rfl⟩

/-- Counterexample to claim C9 as stated: a `POST /crear-admin` request that
does supply name, email and password, but whose email is already registered,
is answered 500 — not 201 — and inserts nothing, so the claim's universal
"every request supplying name, email and password … returns that identity with
201" is false on the code. -/
theorem crearAdmin_duplicate_email_not_201 :
    (crearAdmin exDB (some "Eve") (some "ana@example.com") (some "pw") 7).1.status = 500 ∧
    (crearAdmin exDB (some "Eve") (some "ana@example.com") (some "pw") 7).1.status ≠ 201 ∧
    (crearAdmin exDB (some "Eve") (some "ana@example.com") (some "pw") 7).2 = exDB := by
  refine ⟨?_, ?_, ?_⟩ <;> decide

/-- Claim C9 (amended): `POST /crear-admin` takes no authentication or token
input at all; a request supplying non-empty name, email and password whose
email is not already registered inserts a user whose admin flag is
unconditionally true and answers 201 with that identity — so any
unauthenticated caller can create an administrator (a duplicate email instead
surfaces as a generic 500). -/
theorem crearAdmin_unauthenticated_creates_admin (db : DB) (n e p : String)
    (salt : Nat)
    (hn : n.isEmpty = false) (he : e.isEmpty = false) (hp : p.isEmpty = false)
    (hfresh : emailTaken db e = false) :
    (crearAdmin db (some n) (some e) (some p) salt).1 =
      AdminResult.created db.nextUserId n e true ∧
    (crearAdmin db (some n) (some e) (some p) salt).1.status = 201 ∧
    ∃ newUser : User,
      (crearAdmin db (some n) (some e) (some p) salt).2.users = db.users ++ [newUser] ∧
      newUser.is_admin = true ∧ newUser.id = db.nextUserId ∧
      newUser.name = n ∧ newUser.email = e := by
  refine ⟨?_, ?_,
    ⟨{ id := db.nextUserId, name := n, email := e
       password := bcryptHash p salt, is_admin := true }, ?_, rfl, rfl, rfl, rfl⟩⟩ <;>
    simp [crearAdmin, falsy, hn, he, hp, hfresh, AdminResult.status]

/-- Witness for `crearAdmin_unauthenticated_creates_admin`: creating an admin
with a fresh email against the sample store. -/
theorem crearAdmin_unauthenticated_creates_admin_witness :
    (crearAdmin exDB (some "Eve") (some "eve@example.com") (some "pw") 7).1 =
      AdminResult.created exDB.nextUserId "Eve" "eve@example.com" true ∧
    (crearAdmin exDB (some "Eve") (some "eve@example.com") (some "pw") 7).1.status = 201 ∧
    ∃ newUser : User,
      (crearAdmin exDB (some "Eve") (some "eve@example.com") (some "pw") 7).2.users =
        exDB.users ++ [newUser] ∧
      newUser.is_admin = true ∧ newUser.id = exDB.nextUserId ∧
      newUser.name = "Eve" ∧ newUser.email = "eve@example.com" :=
  crearAdmin_unauthenticated_creates_admin exDB "Eve" "eve@example.com" "pw" 7
    rfl rfl rfl (by decide)

/-- Two pairwise properties of a list combine into the pairwise conjunction. -/
theorem pairwise_conj {α : Type} {R S : α → α → Prop} {l : List α}
    (hR : l.Pairwise R) (hS : l.Pairwise S) :
    l.Pairwise fun a b => R a b ∧ S a b := by
  induction l with
  | nil => exact List.Pairwise.nil
  | cons a l ih =>
    rcases List.pairwise_cons.mp hR with ⟨hRa, hRl⟩
    rcases List.pairwise_cons.mp hS with ⟨hSa, hSl⟩
    exact List.pairwise_cons.mpr ⟨fun b hb => ⟨hRa b hb, hSa b hb⟩, ih hRl hSl⟩

/-- Counterexample to claim C7 as stated: on a store whose two reviews share
the same creation timestamp, the `GET /reviews` result is not in strictly
descending creation-time order (`ORDER BY created_at DESC` leaves ties, so the
order is only non-increasing). -/
theorem listReviews_ties_not_strictly_descending :
    ¬ strictlyDescending (listReviews tieDB) := by decide

/-- Claim C7 (amended): `GET /reviews` returns exactly the rows of the join of
all reviews with their owning user's display name (unbounded, no pagination),
in non-increasing creation-time order; the order is strictly descending
whenever the listed creation times are pairwise distinct.  The
foreign-key hypothesis `hfk` records that every review's `user_id` references
an existing user, which the `reviews` table's constraint guarantees. -/
theorem listReviews_sorted_join (db : DB)
    (hfk : ∀ r ∈ db.reviews, ∃ u ∈ db.users, u.id = r.user_id) :
    (listReviews db).Perm (joinRows db) ∧
    (listReviews db).Pairwise rowGE ∧
    (∀ r ∈ db.reviews, ∃ row ∈ listReviews db,
      row.id = r.id ∧ row.content = r.content ∧ row.created_at = r.created_at ∧
      ∃ u ∈ db.users, u.id = r.user_id ∧ row.user_name = u.name) ∧
    ((listReviews db).Pairwise (fun a b => a.created_at ≠ b.created_at) →
      strictlyDescending (listReviews db)) := by
  have hsorted : (listReviews db).Pairwise rowGE :=
    List.sorted_insertionSort rowGE (joinRows db)
  refine ⟨List.perm_insertionSort rowGE (joinRows db), hsorted, ?_, ?_⟩
  · intro r hr
    obtain ⟨u, hu, huid⟩ := hfk r hr
    refine ⟨⟨r.id, r.content, r.created_at, u.name⟩, ?_, rfl, rfl, rfl, u, hu, huid, rfl⟩
    have hmem : (⟨r.id, r.content, r.created_at, u.name⟩ : ReviewRow) ∈ joinRows db := by
      refine List.mem_flatMap.mpr ⟨r, hr, ?_⟩
      exact List.mem_map.mpr ⟨u, List.mem_filter.mpr ⟨hu, by simp [huid]⟩, rfl⟩
    exact ((List.perm_insertionSort rowGE (joinRows db)).mem_iff).mpr hmem
  · intro hne
    unfold strictlyDescending
    exact (pairwise_conj hsorted hne).imp
      (fun h => lt_of_le_of_ne h.1 (fun heq => h.2 heq.symm))

/-- Witness for `listReviews_sorted_join`: the listing of the sample store is
a permutation of its join. -/
theorem listReviews_sorted_join_witness :
    (listReviews exDB).Perm (joinRows exDB) :=
  (listReviews_sorted_join exDB (by decide)).1

end Reviews
